import Mathlib

/-!
Verification development for the project-quality-hub core: the knowledge
graph builder (`project_mind.py`), the persistence layer
(`project_memory.py`), the multi-branch layer (`multi_branch.py`) and the
incremental updater (`smart_incremental_update.py`) are shallowly embedded
below, and the specification's claims about them are settled as theorems.

Conventions of the embedding:
* Python `dict`s become association lists (`PyDict α := List (String × α)`)
  with Python semantics: assignment updates an existing key in place
  (keeping insertion order) or appends, `del` removes the entry,
  iteration follows the list order.
* `datetime` values become `Nat` timestamps; float scores become `ℚ`.
* The `networkx.DiGraph` becomes an explicit node list plus an edge list
  keyed by the (from, to) pair, with `add_node` / `add_edge` given
  networkx semantics (idempotent node insertion, edge insertion that
  overwrites the data of an existing edge).
* Stateful methods become explicit state-passing functions; fallible
  calls return `Except`.
-/

set_option autoImplicit false

namespace PQH

/-! ## Python dict model -/

/-- Association list standing for a Python `dict` with `String` keys. -/
abbrev PyDict (α : Type) : Type := List (String × α)

namespace PyDict

variable {α : Type}

/-- `d[k]` lookup, `none` when the key is absent. -/
def lookup (d : PyDict α) (k : String) : Option α :=
  match d with
  | [] => none
  | (k', v) :: t => if k' = k then some v else lookup t k

/-- `k in d`. -/
def hasKey (d : PyDict α) (k : String) : Bool :=
  match d with
  | [] => false
  | (k', _) :: t => k' = k || hasKey t k

/-- `d[k] = v`: update in place when the key exists, else append. -/
def insert (d : PyDict α) (k : String) (v : α) : PyDict α :=
  match d with
  | [] => [(k, v)]
  | (k', v') :: t => if k' = k then (k, v) :: t else (k', v') :: insert t k v

/-- `del d[k]` (no error if absent; the source always guards the delete). -/
def erase (d : PyDict α) (k : String) : PyDict α :=
  match d with
  | [] => []
  | (k', v') :: t => if k' = k then t else (k', v') :: erase t k

/-- `list(d.keys())`. -/
def keys (d : PyDict α) : List String := d.map Prod.fst

end PyDict

/-! ## Data model (`project_mind.py` dataclasses)

`datetime` fields are embedded as `Nat` timestamps and float scores as
`ℚ`; every other field keeps its source name and shape. -/

/-- `CodeEntity` dataclass. -/
structure CodeEntity where
  name : String
  entity_type : String
  file_path : String
  line_number : Nat
  signature : Option String := none
  docstring : Option String := none
  complexity_score : ℚ := 0
  usage_count : Nat := 0
  last_modified : Nat := 0
  dependencies : List String := []
  dependents : List String := []
  deriving Repr, DecidableEq

/-- `FileNode` dataclass. -/
structure FileNode where
  file_path : String
  language : String
  size_bytes : Nat
  line_count : Nat
  last_modified : Nat
  file_hash : String
  imports : List String := []
  exports : List String := []
  entities : List CodeEntity := []
  risk_score : ℚ := 0
  change_frequency : Nat := 0
  deriving Repr, DecidableEq

/-- `ProjectContext` dataclass. -/
structure ProjectContext where
  project_root : String
  project_name : String
  framework_type : String
  main_language : String
  architecture_pattern : String
  build_system : String
  package_manager : String
  version : String
  last_analysis : Nat := 0
  total_files : Nat := 0
  total_lines : Nat := 0
  complexity_distribution : PyDict Nat := []
  deriving Repr, DecidableEq

/-! ## Directed dependency graph (`networkx.DiGraph` as used by the core)

The source stores per-edge attributes `relation_type` and `strength` and
per-node attributes it never reads back; the embedding keeps the node
key set and the edge attribute list. -/

/-- Attributes the core puts on a graph edge. -/
structure EdgeData where
  relation_type : String
  strength : ℚ
  deriving Repr, DecidableEq

/-- One directed edge: from-node, to-node, attributes. -/
structure Edge where
  src : String
  dst : String
  data : EdgeData
  deriving Repr, DecidableEq

/-- `networkx.DiGraph`, restricted to what the core reads back. -/
structure DiGraph where
  nodes : List String := []
  edges : List Edge := []
  deriving Repr, DecidableEq

namespace DiGraph

/-- `graph.add_node(n, **attr)`: inserts the node if new, keeps it otherwise. -/
def add_node (g : DiGraph) (n : String) : DiGraph :=
  if g.nodes.contains n then g else { g with nodes := g.nodes ++ [n] }

/-- Whether an edge `(u, v)` is present. -/
def hasEdge (g : DiGraph) (u v : String) : Bool :=
  g.edges.any (fun e => e.src = u && e.dst = v)

/-- `graph.add_edge(u, v, **attr)`: adds missing endpoints as nodes, and
inserts the edge, overwriting the attributes of an existing `(u, v)` edge. -/
def add_edge (g : DiGraph) (u v : String) (d : EdgeData) : DiGraph :=
  let g' := (g.add_node u).add_node v
  if g'.hasEdge u v then
    { g' with
      edges := g'.edges.map (fun e => if e.src = u && e.dst = v then ⟨u, v, d⟩ else e) }
  else
    { g' with edges := g'.edges ++ [⟨u, v, d⟩] }

/-- `graph.number_of_edges()`. -/
def number_of_edges (g : DiGraph) : Nat := g.edges.length

/-- Edges incident to a node (used to speak about what a deletion leaves). -/
def incident (g : DiGraph) (n : String) : List Edge :=
  g.edges.filter (fun e => e.src = n || e.dst = n)

end DiGraph

/-! ## Knowledge graph state (`ProjectKnowledgeGraph.__init__`) -/

/-- The mutable state of a `ProjectKnowledgeGraph` instance. -/
structure KnowledgeGraph where
  project_root : String
  graph : DiGraph := {}
  files : PyDict FileNode := []
  entities : PyDict CodeEntity := []
  context : Option ProjectContext := none
  deriving Repr, DecidableEq

/-! ## Risk scoring (`ProjectKnowledgeGraph._calculate_risk_scores`) -/

/-- The `risk_factors` list the source builds for one file node. -/
def riskFactors (f : FileNode) : List ℚ :=
  (if f.size_bytes > 10000 then [(3 : ℚ)/10] else []) ++
  (if f.line_count > 500 then [(4 : ℚ)/10] else []) ++
  (if f.entities.length > 20 then [(3 : ℚ)/10] else []) ++
  (if f.imports.length > 15 then [(2 : ℚ)/10] else [])

/-- Per-file body of `_calculate_risk_scores`:
`file_node.risk_score = min(1.0, sum(risk_factors))`. -/
def calcRiskScore (f : FileNode) : FileNode :=
  { f with risk_score := min 1 (riskFactors f).sum }

/-- `_calculate_risk_scores`: updates every file node in the dict. -/
def calculate_risk_scores (files : PyDict FileNode) : PyDict FileNode :=
  files.map (fun kv => (kv.1, calcRiskScore kv.2))

/-! ## String helpers

The embedding re-implements the string primitives it needs structurally
over `String.data` (character lists), with the same behavior as the
library functions the source uses on its single-character separators —
the library versions are defined by well-founded recursion on byte
positions, which blocks definitional evaluation. -/

/-- Split a character list at every occurrence of `c` (like
`str.split(c)` for a one-character separator). -/
def splitOnChar (c : Char) : List Char → List (List Char)
  | [] => [[]]
  | x :: xs =>
    match splitOnChar c xs with
    | [] => [[]]
    | h :: t => if x = c then [] :: h :: t else (x :: h) :: t

/-- `s.split(sep)` for a one-character separator. -/
def pySplit (s : String) (sep : Char) : List String :=
  (splitOnChar sep s.data).map String.mk

/-- `s.strip()`. -/
def pyStrip (s : String) : String :=
  String.mk (((s.data.dropWhile Char.isWhitespace).reverse.dropWhile
    Char.isWhitespace).reverse)

/-- `s.startswith(pre)`. -/
def pyStartsWith (s pre : String) : Bool :=
  pre.data.isPrefixOf s.data

/-- `s.endswith(suf)`. -/
def pyEndsWith (s suf : String) : Bool :=
  suf.data.isSuffixOf s.data

/-- Drop the first `n` characters. -/
def strDrop (s : String) (n : Nat) : String :=
  String.mk (s.data.drop n)

/-- Drop the last `n` characters. -/
def strDropRight (s : String) (n : Nat) : String :=
  String.mk (s.data.take (s.data.length - n))

/-- Character count. -/
def strLen (s : String) : Nat := s.data.length

/-- Join strings with a separator. -/
def joinWith (sep : String) : List String → String
  | [] => ""
  | [x] => x
  | x :: xs => x ++ sep ++ joinWith sep xs

/-- `int(s)` for an unsigned decimal, `none` when that raises
`ValueError`. -/
def strToNat? (s : String) : Option Nat :=
  if s.data ≠ [] ∧ s.data.all Char.isDigit then
    some (s.data.foldl (fun n c => n * 10 + (c.toNat - 48)) 0)
  else none

/-! ## Path arithmetic (`pathlib.Path` operations the builder uses)

Paths are plain strings; the helpers mirror `Path.suffix`, `Path.parent`,
`Path./` and `Path.with_suffix` on the slash-separated shapes the core
produces (absolute file paths and relative import strings). -/

/-- Last path component (`Path(p).name`). -/
def lastComponent (p : String) : String :=
  (pySplit p '/').getLastD p

/-- `Path(p).suffix`: the extension of the final component, with its dot;
empty for no extension and for a bare dot-file such as `.py`. -/
def pathSuffix (p : String) : String :=
  match pySplit (lastComponent p) '.' with
  | [] => ""
  | [_] => ""
  | parts => if parts.head? = some "" ∧ parts.length = 2 then ""
             else "." ++ parts.getLastD ""

/-- `Path(p).parent`. -/
def parentDir (p : String) : String :=
  let comps := pySplit p '/'
  if comps.length ≤ 1 then "." else
    let d := joinWith "/" comps.dropLast
    if d = "" then "/" else d

/-- `Path(a) / b` for a relative `b` (no normalization of `..`,
matching `pathlib`, which keeps the literal components). -/
def joinPath (a b : String) : String :=
  if pyEndsWith a "/" then a ++ b else a ++ "/" ++ b

/-- `Path(p).with_suffix(ext)`. -/
def withSuffix (p ext : String) : String :=
  strDropRight p (strLen (pathSuffix p)) ++ ext

/-- `Path(p).parts`, without the root marker. -/
def pathParts (p : String) : List String :=
  (pySplit p '/').filter (fun c => c ≠ "")

/-! ## Filesystem and parsed-content model

A file's content enters the builder only through: its md5 hash, its
non-blank line count, and (for Python) the nodes `ast.walk` yields that
`_analyze_python_file` reacts to. The embedding carries exactly those.
The regex-based JavaScript/TypeScript extractor is outside the model:
non-Python files are recorded with their base metadata and no extracted
entities (no claim concerns the JS path). -/

/-- The `ast.walk` nodes `_analyze_python_file` dispatches on, in the
order the walk yields them: `FunctionDef`, `ClassDef`, `Import`
(with its alias names), `ImportFrom` (with its optional module). -/
inductive PyItem where
  | funcDef (name : String) (line : Nat) (doc : Option String)
  | classDef (name : String) (line : Nat) (doc : Option String)
  | importNames (names : List String)
  | importFrom (module : Option String)
  deriving Repr, DecidableEq

/-- Parsed view of one file's bytes: `none` for `ast` means
`ast.parse` raises `SyntaxError` on this content. -/
structure PyContent where
  hash : String
  nonBlankLines : Nat
  ast : Option (List PyItem)
  deriving Repr, DecidableEq

/-- One on-disk file as the builder observes it. -/
structure FSFile where
  path : String
  size : Nat
  mtime : Nat
  content : PyContent
  deriving Repr, DecidableEq

/-- The file tree under the project root, in `rglob` traversal order. -/
abbrev FileSystem := List FSFile

/-- `Path(p).exists()`. -/
def FileSystem.pathExists (fs : FileSystem) (p : String) : Bool :=
  fs.any (fun f => f.path = p)

/-- Read a file's observable data; `none` models an unreadable path. -/
def FileSystem.get? (fs : FileSystem) (p : String) : Option FSFile :=
  fs.find? (fun f => f.path = p)

/-! ## Builder (`ProjectKnowledgeGraph`) -/

/-- `self.supported_extensions`, in dict insertion order. -/
def supported_extensions : PyDict String :=
  [(".py", "python"), (".js", "javascript"), (".jsx", "javascript"),
   (".ts", "typescript"), (".tsx", "typescript"), (".java", "java"),
   (".go", "go"), (".rs", "rust"), (".c", "c"), (".cpp", "cpp"),
   (".h", "c"), (".hpp", "cpp")]

/-- `ignore_dirs` of `_scan_and_analyze_files`. -/
def ignore_dirs : List String :=
  ["node_modules", ".git", "__pycache__", ".pytest_cache",
   "dist", "build", "target", ".idea", ".vscode", "coverage"]

/-- `_analyze_python_file`'s walk loop: appends entities to the file node,
registers them in `self.entities` under `f"{file_path}:{name}"`, and
collects import strings. -/
def analyze_python_items (kg : KnowledgeGraph) (fn : FileNode) :
    List PyItem → FileNode × KnowledgeGraph
  | [] => (fn, kg)
  | item :: rest =>
    match item with
    | .funcDef name line doc =>
      let entity : CodeEntity :=
        { name := name, entity_type := "function", file_path := fn.file_path,
          line_number := line, signature := some ("def " ++ name ++ "(...)"),
          docstring := doc }
      let fn' := { fn with entities := fn.entities ++ [entity] }
      let kg' := { kg with
        entities := PyDict.insert kg.entities (fn.file_path ++ ":" ++ name) entity }
      analyze_python_items kg' fn' rest
    | .classDef name line doc =>
      let entity : CodeEntity :=
        { name := name, entity_type := "class", file_path := fn.file_path,
          line_number := line, signature := some ("class " ++ name ++ "(...)"),
          docstring := doc }
      let fn' := { fn with entities := fn.entities ++ [entity] }
      let kg' := { kg with
        entities := PyDict.insert kg.entities (fn.file_path ++ ":" ++ name) entity }
      analyze_python_items kg' fn' rest
    | .importNames names =>
      analyze_python_items kg { fn with imports := fn.imports ++ names } rest
    | .importFrom module =>
      match module with
      | some m => analyze_python_items kg { fn with imports := fn.imports ++ [m] } rest
      | none => analyze_python_items kg fn rest

/-- `_analyze_python_file`: a `SyntaxError` from `ast.parse` is caught and
leaves the file node with zero extracted entities. -/
def analyze_python_file (kg : KnowledgeGraph) (fn : FileNode)
    (ast : Option (List PyItem)) : FileNode × KnowledgeGraph :=
  match ast with
  | none => (fn, kg)
  | some items => analyze_python_items kg fn items

/-- `_analyze_single_file`: reads the file, builds the base `FileNode`,
then runs the language-specific extractor; any exception (unreadable
file, unsupported suffix raising `KeyError`) is caught and yields `None`
with the instance state untouched. -/
def analyze_single_file (fs : FileSystem) (kg : KnowledgeGraph)
    (file_path : String) : Option FileNode × KnowledgeGraph :=
  match fs.get? file_path with
  | none => (none, kg)
  | some f =>
    match PyDict.lookup supported_extensions (pathSuffix file_path) with
    | none => (none, kg)
    | some language =>
      let fn : FileNode :=
        { file_path := file_path, language := language, size_bytes := f.size,
          line_count := f.content.nonBlankLines, last_modified := f.mtime,
          file_hash := f.content.hash }
      if language = "python" then
        let (fn', kg') := analyze_python_file kg fn f.content.ast
        (some fn', kg')
      else
        (some fn, kg)

/-- Loop body driver of `_scan_and_analyze_files`: walks the tree in
`rglob` order, stops at `max_files` analyzed files, skips deny-listed
directories and unsupported suffixes, and records each produced node
under `str(file_path)`. Returns the processed count. -/
def scan_and_analyze_files (fs : FileSystem) (kg : KnowledgeGraph)
    (max_files : Nat) : KnowledgeGraph × Nat :=
  go fs kg 0
where
  go : List FSFile → KnowledgeGraph → Nat → KnowledgeGraph × Nat
  | [], kg, n => (kg, n)
  | f :: rest, kg, n =>
    if n ≥ max_files then (kg, n)
    else if (ignore_dirs.any (fun d => (pathParts f.path).contains d)) then
      go rest kg n
    else if PyDict.hasKey supported_extensions (pathSuffix f.path) then
      match analyze_single_file fs kg f.path with
      | (some fn, kg') =>
        go rest { kg' with files := PyDict.insert kg'.files f.path fn } (n + 1)
      | (none, kg') => go rest kg' n
    else go rest kg n

/-- `_resolve_import`: only import strings starting with a relative-path
dot are resolved, against the importing file's directory, trying each
supported extension in dict order; the first candidate existing on disk
wins. Anything else resolves to `None`. -/
def resolve_import (fs : FileSystem) (import_name from_file : String) :
    Option String :=
  if pyStartsWith import_name "." then
    let from_dir := parentDir from_file
    let import_path :=
      if pyStartsWith import_name "./" then joinPath from_dir (strDrop import_name 2)
      else if pyStartsWith import_name "../" then joinPath from_dir import_name
      else joinPath from_dir (strDrop import_name 1)
    (PyDict.keys supported_extensions).findSome? (fun ext =>
      let potential := withSuffix import_path ext
      if fs.pathExists potential then some potential else none)
  else none

/-- Inner loop of `_build_dependency_graph` for one file: node for the
file, an `imports` edge (strength 0.8) per resolved import that is also
an analyzed file, then a node and a `contains` edge (strength 1.0) per
owned entity. -/
def build_deps_for_file (fs : FileSystem) (files : PyDict FileNode)
    (g : DiGraph) (cnt : Nat) (file_path : String) (fn : FileNode) :
    DiGraph × Nat :=
  let g := g.add_node file_path
  let (g, cnt) := fn.imports.foldl (fun (acc : DiGraph × Nat) import_name =>
    match resolve_import fs import_name file_path with
    | some target =>
      if PyDict.hasKey files target then
        (acc.1.add_edge file_path target ⟨"imports", 8/10⟩, acc.2 + 1)
      else acc
    | none => acc) (g, cnt)
  let g := fn.entities.foldl (fun (acc : DiGraph) entity =>
    let entity_key := file_path ++ ":" ++ entity.name
    (acc.add_node entity_key).add_edge file_path entity_key ⟨"contains", 1⟩) g
  (g, cnt)

/-- `_build_dependency_graph`: folds the per-file loop over `self.files`
in dict order and returns the new graph with the dependency count. -/
def build_dependency_graph (fs : FileSystem) (kg : KnowledgeGraph) :
    KnowledgeGraph × Nat :=
  let (g, cnt) := kg.files.foldl
    (fun (acc : DiGraph × Nat) kv => build_deps_for_file fs kg.files acc.1 acc.2 kv.1 kv.2)
    (kg.graph, 0)
  ({ kg with graph := g }, cnt)

/-- `_update_context_statistics`: totals and the 4-bucket complexity
histogram over risk-score thresholds 0.3 / 0.6 / 0.8. -/
def update_context_statistics (kg : KnowledgeGraph) : KnowledgeGraph :=
  match kg.context with
  | none => kg
  | some ctx =>
    let files := kg.files.map Prod.snd
    let low := files.countP (fun f => f.risk_score < 3/10)
    let medium := files.countP (fun f => ¬ f.risk_score < 3/10 ∧ f.risk_score < 6/10)
    let high := files.countP (fun f => ¬ f.risk_score < 6/10 ∧ f.risk_score < 8/10)
    let extreme := files.countP (fun f => ¬ f.risk_score < 8/10)
    { kg with context := some { ctx with
        total_files := kg.files.length,
        total_lines := (files.map FileNode.line_count).sum,
        complexity_distribution :=
          [("low", low), ("medium", medium), ("high", high), ("extreme", extreme)] } }

/-- `analyze_project`: the full pipeline. Context detection
(`_analyze_project_context` and its manifest heuristics) is taken as the
input `ctx0`, since no claim depends on the detected values; the
remaining steps — scan/analyze, dependency graph, risk scores,
statistics — follow the source. -/
def analyze_project (fs : FileSystem) (ctx0 : ProjectContext)
    (project_root : String) (max_files : Nat := 1000) : KnowledgeGraph :=
  let kg : KnowledgeGraph := { project_root := project_root }
  let kg := { kg with context := some ctx0 }
  let (kg, _) := scan_and_analyze_files fs kg max_files
  let (kg, _) := build_dependency_graph fs kg
  let kg := { kg with files := calculate_risk_scores kg.files }
  update_context_statistics kg

/-! ## Scenario A (claim C3): `a.py` defines `foo`, `b.py` does
`from a import foo` -/

/-- A fixed project context for the end-to-end scenarios (context
detection does not influence any claimed property). -/
def scenarioCtx : ProjectContext :=
  { project_root := "/proj", project_name := "proj", framework_type := "python",
    main_language := "python", architecture_pattern := "unknown",
    build_system := "unknown", package_manager := "pip", version := "0.0.0" }

/-- The scenario-A tree: `a.py` with `def foo(): pass` (one
`FunctionDef` node), `b.py` with `from a import foo` (one `ImportFrom`
node whose module is `a`). -/
def fsScenarioA : FileSystem :=
  [ { path := "/proj/a.py", size := 18, mtime := 100,
      content := { hash := "ha", nonBlankLines := 1, ast := some [.funcDef "foo" 1 none] } },
    { path := "/proj/b.py", size := 22, mtime := 100,
      content := { hash := "hb", nonBlankLines := 1, ast := some [.importFrom (some "a")] } } ]

/-- The graph `analyze` produces on scenario A. -/
def kgScenarioA : KnowledgeGraph := analyze_project fsScenarioA scenarioCtx "/proj"

/-- Exceptions the embedded code raises or catches. -/
inductive PyExc where
  | calledProcessError
  | fileNotFoundError
  | valueError
  | typeError
  | attributeError
  | osError
  | moduleNotFoundError
  deriving Repr, DecidableEq

/-! ## Memory manager (`project_memory.py`)

The relational store is modelled per project identity as the rows the
five save steps write and the load path reads back; columns written but
never read on any load path (`relative_path`, `created_at`,
`updated_at`, `last_accessed`) are omitted. `hashlib.md5(...).hexdigest()`
is modelled as an injective tagging function (the design treats the
digest as a collision-free stable identity). -/

/-- Stand-in for `hashlib.md5(s.encode()).hexdigest()`. -/
def md5 (s : String) : String := "md5#" ++ s

/-- A row of the `files` table (the columns the load path reads).
`AUTOINCREMENT` ids are modelled as 1, 2, … in insertion order; only
their role as join keys matters and save deletes the project's rows
first. -/
structure FileRow where
  id : Nat
  file_path : String
  language : String
  size_bytes : Nat
  line_count : Nat
  file_hash : String
  risk_score : ℚ
  change_frequency : Nat
  last_modified : Nat
  deriving Repr, DecidableEq

/-- A row of the `entities` table (the columns the load path reads). -/
structure EntityRow where
  file_id : Nat
  name : String
  entity_type : String
  signature : Option String
  docstring : Option String
  line_number : Nat
  complexity_score : ℚ
  usage_count : Nat
  last_modified : Nat
  deriving Repr, DecidableEq

/-- A row of the `dependencies` table (the columns the load path reads;
`_save_dependencies` only ever fills the file-to-file id columns). -/
structure DepRow where
  from_file_id : Nat
  to_file_id : Nat
  relation_type : String
  strength : ℚ
  deriving Repr, DecidableEq

/-- All relational rows for one project identity. The `projects` row
carries the context columns; `last_analysis` is not a column, so the
stored copy zeroes it. -/
structure ProjectData where
  context_row : ProjectContext
  file_rows : List FileRow
  entity_rows : List EntityRow
  dep_rows : List DepRow
  deriving Repr, DecidableEq

/-- One `files`-table row from an enumerated dict entry. -/
def file_row_of (p : Nat × String × FileNode) : FileRow :=
  { id := p.1 + 1, file_path := p.2.1, language := p.2.2.language,
    size_bytes := p.2.2.size_bytes, line_count := p.2.2.line_count,
    file_hash := p.2.2.file_hash, risk_score := p.2.2.risk_score,
    change_frequency := p.2.2.change_frequency,
    last_modified := p.2.2.last_modified }

/-- `_save_files` after the delete: one row per entry of `self.files`,
in dict order, with fresh autoincrement ids. -/
def mk_file_rows (files : PyDict FileNode) : List FileRow :=
  files.enum.map file_row_of

/-- The `file_id_map` (`file_path → id`) both row writers build. -/
def file_id_map (rows : List FileRow) : PyDict Nat :=
  rows.map (fun r => (r.file_path, r.id))

/-- `_save_entities` after the delete: a row per entity whose
`file_path` has a file id (entities of unknown files are dropped). -/
def mk_entity_rows (fmap : PyDict Nat) (entities : PyDict CodeEntity) :
    List EntityRow :=
  entities.filterMap (fun kv =>
    match PyDict.lookup fmap kv.2.file_path with
    | some fid => some
      { file_id := fid, name := kv.2.name, entity_type := kv.2.entity_type,
        signature := kv.2.signature, docstring := kv.2.docstring,
        line_number := kv.2.line_number, complexity_score := kv.2.complexity_score,
        usage_count := kv.2.usage_count, last_modified := kv.2.last_modified }
    | none => none)

/-- Row construction of `_save_dependencies` over an edge list: a row
per edge whose endpoints BOTH map to file ids — edges touching an
entity node (all the `contains` edges) are silently dropped. -/
def mk_dep_rows_list (fmap : PyDict Nat) (es : List Edge) : List DepRow :=
  es.filterMap (fun e =>
    match PyDict.lookup fmap e.src, PyDict.lookup fmap e.dst with
    | some fid, some tid =>
      some { from_file_id := fid, to_file_id := tid,
             relation_type := e.data.relation_type, strength := e.data.strength }
    | _, _ => none)

/-- `_save_dependencies` after the delete. -/
def mk_dep_rows (fmap : PyDict Nat) (g : DiGraph) : List DepRow :=
  mk_dep_rows_list fmap g.edges

/-- The rows one successful save writes for a graph with context `ctx`. -/
def buildProjectData (ctx : ProjectContext) (kg : KnowledgeGraph) : ProjectData :=
  let rows := mk_file_rows kg.files
  let fmap := file_id_map rows
  { context_row := { ctx with last_analysis := 0 },
    file_rows := rows,
    entity_rows := mk_entity_rows fmap kg.entities,
    dep_rows := mk_dep_rows fmap kg.graph }

/-- `ProjectMemoryManager` state: relational store, snapshot (`.pkl`)
store, in-process cache with timestamps, the (re-bindable)
`get_project_id` method, and the cache configuration from `__init__`. -/
structure MMState where
  db : PyDict ProjectData := []
  snapshots : PyDict KnowledgeGraph := []
  cache : PyDict KnowledgeGraph := []
  cache_timestamps : PyDict Nat := []
  get_project_id : String → String := md5
  max_cache_size : Nat := 5
  cache_ttl : Nat := 7200

/-- The observable steps of one `save_project` call, in program order. -/
inductive SaveEv where
  | beginTx
  | writeContext
  | writeFiles
  | writeEntities
  | writeDeps
  | writeSnapshot
  | commit
  | rollback
  | updateMemCache
  deriving Repr, DecidableEq

/-- Failure injection for `save_project`: which of the fallible steps
raises. (`failSnapshot` models `pickle.dump`/`open` failing before
writing; `failCommit` models the `COMMIT` statement raising.) -/
structure SaveFailure where
  failContext : Bool := false
  failFiles : Bool := false
  failEntities : Bool := false
  failDeps : Bool := false
  failSnapshot : Bool := false
  failCommit : Bool := false
  deriving Repr, DecidableEq

/-- No step raises. -/
def noSaveFailure : SaveFailure := {}

/-- `save_project`: `BEGIN`, the four relational writes, the snapshot
`pickle.dump`, `COMMIT`, then the in-process cache update — with any
exception inside the `try` answered by `ROLLBACK` and `False`. A `None`
context makes `_save_project_context` raise (`AttributeError`), the
first failure point. The snapshot is written INSIDE the transaction
body, before `COMMIT`; a failing `COMMIT` therefore leaves the already
rewritten snapshot behind. Returns (new state, success, event trace). -/
def save_project (st : MMState) (kg : KnowledgeGraph) (now : Nat)
    (fail : SaveFailure) : MMState × Bool × List SaveEv :=
  let pid := st.get_project_id kg.project_root
  match kg.context with
  | none => (st, false, [.beginTx, .rollback])
  | some ctx =>
    if fail.failContext then (st, false, [.beginTx, .rollback])
    else if fail.failFiles then
      (st, false, [.beginTx, .writeContext, .rollback])
    else if fail.failEntities then
      (st, false, [.beginTx, .writeContext, .writeFiles, .rollback])
    else if fail.failDeps then
      (st, false, [.beginTx, .writeContext, .writeFiles, .writeEntities, .rollback])
    else if fail.failSnapshot then
      (st, false,
       [.beginTx, .writeContext, .writeFiles, .writeEntities, .writeDeps, .rollback])
    else if fail.failCommit then
      ({ st with snapshots := PyDict.insert st.snapshots pid kg }, false,
       [.beginTx, .writeContext, .writeFiles, .writeEntities, .writeDeps,
        .writeSnapshot, .rollback])
    else
      ({ st with
          db := PyDict.insert st.db pid (buildProjectData ctx kg),
          snapshots := PyDict.insert st.snapshots pid kg,
          cache := PyDict.insert st.cache pid kg,
          cache_timestamps := PyDict.insert st.cache_timestamps pid now },
       true,
       [.beginTx, .writeContext, .writeFiles, .writeEntities, .writeDeps,
        .writeSnapshot, .commit, .updateMemCache])

/-- `_is_cache_valid`: a snapshot is stale as soon as any recorded file
exists on disk with a modification time newer than the recorded one. -/
def is_cache_valid (fs : FileSystem) (kg : KnowledgeGraph) : Bool :=
  kg.files.all (fun kv =>
    match fs.get? kv.1 with
    | some f => !(f.mtime > kv.2.last_modified)
    | none => true)

/-- `_rebuild_project_context`: after the `json.loads` of the stored
complexity distribution, the method executes the ABSOLUTE import
`from project_mind import ProjectContext` — but in this package layout
the module is only importable as `project_quality_hub.core.project_mind`
(every other import in the package is relative, and nothing extends
`sys.path`), so the import raises `ModuleNotFoundError` on every call
and the reconstructed context below it is never built. -/
def rebuild_project_context (_row : ProjectContext) (_now : Nat) :
    Except PyExc ProjectContext :=
  .error .moduleNotFoundError

/-- The `id → file_path` map both rebuild loops read. -/
def id_path_map (rows : List FileRow) : List (Nat × String) :=
  rows.map (fun r => (r.id, r.file_path))

/-- One file row back into a fresh `FileNode` (empty
import/export/entity lists — those are not columns), inserted into the
files dict. -/
def insert_file_row (acc : PyDict FileNode) (r : FileRow) : PyDict FileNode :=
  PyDict.insert acc r.file_path
    { file_path := r.file_path, language := r.language,
      size_bytes := r.size_bytes, line_count := r.line_count,
      last_modified := r.last_modified, file_hash := r.file_hash,
      risk_score := r.risk_score, change_frequency := r.change_frequency }

/-- One entity row back into the entities dict keyed
`f"{file_path}:{name}"`, appended to its owning node; rows whose file
id does not resolve are skipped. -/
def insert_entity_row (idm : List (Nat × String))
    (acc : PyDict FileNode × PyDict CodeEntity) (r : EntityRow) :
    PyDict FileNode × PyDict CodeEntity :=
  match idm.lookup r.file_id with
  | some path =>
    let entity : CodeEntity :=
      { name := r.name, entity_type := r.entity_type, file_path := path,
        line_number := r.line_number, signature := r.signature,
        docstring := r.docstring, complexity_score := r.complexity_score,
        usage_count := r.usage_count, last_modified := r.last_modified }
    (acc.1.map (fun kv =>
       if kv.1 = path then (kv.1, { kv.2 with entities := kv.2.entities ++ [entity] })
       else kv),
     PyDict.insert acc.2 (path ++ ":" ++ r.name) entity)
  | none => acc

/-- `_rebuild_files_and_entities`. -/
def rebuild_files_and_entities (pd : ProjectData) :
    PyDict FileNode × PyDict CodeEntity :=
  let files0 : PyDict FileNode := pd.file_rows.foldl insert_file_row []
  pd.entity_rows.foldl (insert_entity_row (id_path_map pd.file_rows)) (files0, [])

/-- One dependency row back into the graph: an edge when both file ids
resolve through the id map, skipped otherwise. -/
def dep_insert (idm : List (Nat × String)) (g : DiGraph) (r : DepRow) : DiGraph :=
  match idm.lookup r.from_file_id, idm.lookup r.to_file_id with
  | some fp, some tp => g.add_edge fp tp ⟨r.relation_type, r.strength⟩
  | _, _ => g

/-- `_rebuild_dependencies`: nodes for every file path and entity key,
then an edge per `dependencies` row whose two file ids resolve. -/
def rebuild_dependencies (pd : ProjectData) (files : PyDict FileNode)
    (entities : PyDict CodeEntity) : DiGraph :=
  let g := (PyDict.keys files).foldl (fun g n => g.add_node n) ({} : DiGraph)
  let g := (PyDict.keys entities).foldl (fun g n => g.add_node n) g
  pd.dep_rows.foldl (dep_insert (id_path_map pd.file_rows)) g

/-- `_load_from_database`: `None` when the project row is absent;
otherwise it assigns the rebuilt context FIRST — and since
`_rebuild_project_context` raises on every call, the method's blanket
`except Exception` turns that into `None` before the file/entity and
dependency rebuilds (real but unreachable code, modelled above) run.
The relational-reconstruction path therefore never produces a graph. -/
def load_from_database (st : MMState) (pid project_root : String)
    (now : Nat) : Option KnowledgeGraph :=
  match PyDict.lookup st.db pid with
  | none => none
  | some pd =>
    match rebuild_project_context pd.context_row now with
    | .error _ => none
    | .ok ctx =>
      let fe := rebuild_files_and_entities pd
      some { project_root := project_root,
             graph := rebuild_dependencies pd fe.1 fe.2,
             files := fe.1, entities := fe.2,
             context := some ctx }

/-- `load_project`: in-process cache (when `use_cache`, respecting TTL),
then snapshot (validated against on-disk mtimes, refreshing the
in-process cache on a hit), then relational rebuild; `none` when
nothing is found. Returns the graph and the (possibly cache-updated)
manager state. -/
def load_project (fs : FileSystem) (st : MMState) (project_root : String)
    (now : Nat) (use_cache : Bool := true) : Option KnowledgeGraph × MMState :=
  let pid := st.get_project_id project_root
  let memHit : Option KnowledgeGraph :=
    if use_cache then
      match PyDict.lookup st.cache pid, PyDict.lookup st.cache_timestamps pid with
      | some kg, some ts => if now - ts < st.cache_ttl then some kg else none
      | _, _ => none
    else none
  match memHit with
  | some kg => (some kg, st)
  | none =>
    match PyDict.lookup st.snapshots pid with
    | some kg =>
      if is_cache_valid fs kg then
        (some kg,
         { st with cache := PyDict.insert st.cache pid kg,
                   cache_timestamps := PyDict.insert st.cache_timestamps pid now })
      else (load_from_database st pid project_root now, st)
    | none => (load_from_database st pid project_root now, st)

/-! ## External version-control calls (`subprocess.run` in the core)

Each call site is recorded as a descriptor with exactly the keyword
arguments the source passes (`timeout := none` means no `timeout=`
argument at all), and the surrounding result handling is embedded over
an outcome oracle for the external tool. -/

/-- One `subprocess.run` call site. -/
structure SubprocessCall where
  argv : List String
  cwd_project_root : Bool
  capture_output : Bool
  check : Bool
  timeout : Option Nat
  deriving Repr, DecidableEq

/-- `multi_branch._get_current_branch`: `git rev-parse --abbrev-ref HEAD`. -/
def currentBranchCall : SubprocessCall :=
  { argv := ["git", "rev-parse", "--abbrev-ref", "HEAD"],
    cwd_project_root := true, capture_output := true, check := true,
    timeout := none }

/-- `multi_branch._get_commit_info`, first call: `git rev-parse HEAD`. -/
def commitHashCall : SubprocessCall :=
  { argv := ["git", "rev-parse", "HEAD"],
    cwd_project_root := true, capture_output := true, check := true,
    timeout := none }

/-- `multi_branch._get_commit_info`, second call:
`git log -1 --format=%ct|%an`. -/
def commitInfoCall : SubprocessCall :=
  { argv := ["git", "log", "-1", "--format=%ct|%an"],
    cwd_project_root := true, capture_output := true, check := true,
    timeout := none }

/-- `smart_incremental_update._get_git_file_info`:
`git log -1 --format=%H|%ct|%an -- <path>` (path elided). -/
def gitFileInfoCall : SubprocessCall :=
  { argv := ["git", "log", "-1", "--format=%H|%ct|%an", "--"],
    cwd_project_root := true, capture_output := true, check := true,
    timeout := none }

/-- The version-control query calls the claim ranges over: current
branch, commit info, per-file git log. -/
def coreGitQueryCalls : List SubprocessCall :=
  [currentBranchCall, commitHashCall, commitInfoCall, gitFileInfoCall]

/-- What running one external git command can come to. -/
inductive GitOutcome where
  | success (stdout : String)
  | nonZeroExit
  | toolAbsent
  deriving Repr, DecidableEq

/-- `subprocess.run(..., check=True)` over the outcome oracle. -/
def run_checked (o : GitOutcome) : Except PyExc String :=
  match o with
  | .success out => .ok out
  | .nonZeroExit => .error .calledProcessError
  | .toolAbsent => .error .fileNotFoundError

/-- `_get_current_branch`: the stripped stdout, or `"unknown"` when the
tool is absent or exits non-zero. -/
def get_current_branch (o : GitOutcome) : String :=
  match run_checked o with
  | .ok out => pyStrip out
  | .error _ => "unknown"

/-- `_get_commit_info`: commit hash, commit time, author; the two
listed failures degrade to `("unknown", now, "unknown")`. Malformed
stdout from a successful second call raises `ValueError` out of the
method (not caught there); the model surfaces that as `.error`. -/
def get_commit_info (o₁ o₂ : GitOutcome) (now : Nat) :
    Except PyExc (String × Nat × String) :=
  match run_checked o₁ with
  | .error _ => .ok ("unknown", now, "unknown")
  | .ok hashOut =>
    match run_checked o₂ with
    | .error _ => .ok ("unknown", now, "unknown")
    | .ok infoOut =>
      match pySplit (pyStrip infoOut) '|' with
      | [ts, author] =>
        match strToNat? ts with
        | some t => .ok (pyStrip hashOut, t, author)
        | none => .error .valueError
      | _ => .error .valueError

/-- Git metadata `_get_git_file_info` extracts. -/
structure GitFileInfo where
  last_commit_hash : String
  last_commit_time : Nat
  last_author : String
  deriving Repr, DecidableEq

/-- `_get_git_file_info`: parses `%H|%ct|%an`; empty stdout, the two
subprocess failures, and any `ValueError` from parsing all yield the
empty dict (`none`). -/
def get_git_file_info (o : GitOutcome) : Option GitFileInfo :=
  match run_checked o with
  | .error _ => none
  | .ok out =>
    if pyStrip out = "" then none
    else
      match pySplit (pyStrip out) '|' with
      | [h, ts, author] =>
        match strToNat? ts with
        | some t => some { last_commit_hash := h, last_commit_time := t, last_author := author }
        | none => none
      | _ => none

/-! ## Multi-branch layer (`multi_branch.py`) -/

/-- `_generate_branch_project_id`: md5 of `f"{project_root}#{branch}"`. -/
def generate_branch_project_id (project_root branch_name : String) : String :=
  md5 (project_root ++ "#" ++ branch_name)

/-- `_load_branch_project`: swap `get_project_id` for the branch lambda,
call `load_project`, swap back, return the graph — all inside one
`try`. `raises` injects an exception from the overridden section (e.g.
an `OSError` from the snapshot-file probe): the `except` returns `None`
and the restore line never runs. -/
def load_branch_project (st : MMState) (project_root branch_name : String)
    (fs : FileSystem) (now : Nat) (raises : Bool) :
    Option KnowledgeGraph × MMState :=
  let original := st.get_project_id
  let st₁ := { st with get_project_id := fun _ => generate_branch_project_id project_root branch_name }
  if raises then (none, st₁)
  else
    let r := load_project fs st₁ project_root now true
    (r.1, { r.2 with get_project_id := original })

/-- `_save_branch_project`: swap `get_project_id` for the branch lambda,
`save_project`, on success write the branch-context JSON side file, swap
back, return success — all inside one `try`. `ctxWriteRaises` injects a
failure from `_save_branch_context` (a plain filesystem write): the
`except` returns `False` and the restore line never runs. -/
def save_branch_project (st : MMState) (project_root branch_name : String)
    (kg : KnowledgeGraph) (now : Nat) (fail : SaveFailure)
    (ctxWriteRaises : Bool) : Bool × MMState :=
  let original := st.get_project_id
  let st₁ := { st with get_project_id := fun _ => generate_branch_project_id project_root branch_name }
  let r := save_project st₁ kg now fail
  if r.2.1 && ctxWriteRaises then (false, r.1)
  else (r.2.1, { r.1 with get_project_id := original })

/-! ## Incremental updater (`smart_incremental_update.py`) -/

/-- The two interchangeable watch mechanisms. -/
inductive ObserverKind where
  | native
  | polling
  deriving Repr, DecidableEq

/-- `SmartIncrementalUpdater`'s monitoring-related state. -/
structure UpdaterState where
  monitoring : Bool := false
  observer : Option ObserverKind := none
  observer_class : Option ObserverKind := none
  deriving Repr, DecidableEq

/-- `_candidate_observers`: polling only under the force flag, else
native first with polling as fallback. -/
def candidate_observers (force_polling : Bool) : List ObserverKind :=
  if force_polling then [.polling] else [.native, .polling]

/-- `start_monitoring` over an oracle saying which mechanisms can
actually construct+schedule+start. Already monitoring: warning no-op.
First startable candidate wins and only then are `observer`,
`_observer_class` and `monitoring` set. No candidate startable: raise
`RuntimeError` (second component `true`), instance fields untouched. -/
def start_monitoring (canStart : ObserverKind → Bool) (force_polling : Bool)
    (s : UpdaterState) : UpdaterState × Bool :=
  if s.monitoring then (s, false)
  else
    match (candidate_observers force_polling).find? canStart with
    | some k => ({ s with observer := some k, observer_class := some k, monitoring := true }, false)
    | none => (s, true)

/-- `stop_monitoring`: no-op when idle or observer-less; otherwise stop
and join the watcher and clear `monitoring` (the `observer` field is
left pointing at the stopped watcher). -/
def stop_monitoring (s : UpdaterState) : UpdaterState :=
  if !s.monitoring || s.observer.isNone then s
  else { s with monitoring := false }

/-- `FileChangeInfo` dataclass (hashes as optional strings). -/
structure FileChangeInfo where
  file_path : String
  change_type : String
  old_hash : Option String := none
  new_hash : Option String := none
  timestamp : Nat := 0
  deriving Repr, DecidableEq

/-- `_process_single_file_change`. `deleted`: drop the `FileNode` (when
present) and every entity whose `file_path` matches; the dependency
graph is not touched. `created`/`modified` with the path on disk: after
the read-only git queries, the source invokes
`knowledge_graph._analyze_single_file(file_path, relative_path)` — but
`_analyze_single_file` accepts a single positional argument, so Python
raises `TypeError` at the call, before any re-analysis; the model
surfaces exactly that. Any other case leaves the graph unchanged. -/
def process_single_file_change (fs : FileSystem) (kg : KnowledgeGraph)
    (ci : FileChangeInfo) : Except PyExc KnowledgeGraph :=
  if ci.change_type = "deleted" then
    let files := if PyDict.hasKey kg.files ci.file_path
                 then PyDict.erase kg.files ci.file_path else kg.files
    let entities := kg.entities.filter (fun kv => kv.2.file_path ≠ ci.file_path)
    .ok { kg with files := files, entities := entities }
  else if ci.change_type = "created" ∨ ci.change_type = "modified" then
    if fs.pathExists ci.file_path then .error .typeError
    else .ok kg
  else .ok kg

/-- `_update_dependencies`: for each updated path still in `files` it
invokes `knowledge_graph._analyze_imports_exports(...)` —
`ProjectKnowledgeGraph` defines no such attribute, so the first such
path raises `AttributeError`; with no such path the loop is a no-op. -/
def update_dependencies (kg : KnowledgeGraph) (updated_files : List String) :
    Except PyExc KnowledgeGraph :=
  if updated_files.any (fun p => PyDict.hasKey kg.files p) then .error .attributeError
  else .ok kg

/-- The per-batch mutation of `_process_file_changes` after the graph is
loaded: each change is processed under its own `try` (a failing change
is logged and skipped, and only successfully processed paths reach
`updated_files`), then `_update_dependencies` runs over the updated
paths (outside any `try`: its exception kills the batch before the
save). Returns the mutated graph and the updated-path list. -/
def apply_changes (fs : FileSystem) (kg : KnowledgeGraph)
    (changes : List FileChangeInfo) :
    Except PyExc (KnowledgeGraph × List String) :=
  let step := changes.foldl (fun (acc : KnowledgeGraph × List String) ci =>
    match process_single_file_change fs acc.1 ci with
    | .ok kg' => (kg', acc.2 ++ [ci.file_path])
    | .error _ => acc) (kg, [])
  if step.2.isEmpty then .ok step
  else (update_dependencies step.1 step.2).map (fun kg' => (kg', step.2))

/-- The file of end-to-end scenario B: over 10,500 bytes, over 520
non-blank lines, over 21 entities, over 16 imports. -/
def scenarioBFile : FileNode :=
  { file_path := "/proj/big.py", language := "python", size_bytes := 10501,
    line_count := 521, last_modified := 0, file_hash := "hb",
    imports := List.replicate 17 "m",
    entities := List.replicate 22
      { name := "e", entity_type := "function", file_path := "/proj/big.py",
        line_number := 1 } }

/-- The deletion change of scenario C / claim C10, for `a.py`. -/
def deleteChangeA : FileChangeInfo :=
  { file_path := "/proj/a.py", change_type := "deleted" }

/-- A modification change for `a.py` (claim C2's failing input). -/
def modifyChangeA : FileChangeInfo :=
  { file_path := "/proj/a.py", change_type := "modified", new_hash := some "ha2" }

/-- A minimal analyzable graph for a given root (used to drive repeated
saves against one manager). -/
def minimalKG (root : String) : KnowledgeGraph :=
  { project_root := root,
    context := some { scenarioCtx with project_root := root, project_name := root } }

/-- Six distinct project roots saved in sequence into one manager. -/
def sixSaves : MMState :=
  (["/p1", "/p2", "/p3", "/p4", "/p5", "/p6"]).foldl
    (fun st r => (save_project st (minimalKG r) 0 noSaveFailure).1) {}

/-- The event trace of one fully successful `save_project` call. -/
def traceOfSuccessfulSave : List SaveEv :=
  (save_project {} kgScenarioA 0 noSaveFailure).2.2

/-- The manager state after saving the analyzed scenario-A graph into a
fresh manager. -/
def stAfterSaveA : MMState := (save_project {} kgScenarioA 0 noSaveFailure).1

/-- Scenario A's tree after `a.py` is touched on disk (mtime 100 → 200),
making the snapshot stale. -/
def fsScenarioATouched : FileSystem :=
  [ { path := "/proj/a.py", size := 18, mtime := 200,
      content := { hash := "ha", nonBlankLines := 1, ast := some [.funcDef "foo" 1 none] } },
    { path := "/proj/b.py", size := 22, mtime := 100,
      content := { hash := "hb", nonBlankLines := 1, ast := some [.importFrom (some "a")] } } ]

/-- A load 10000 s after the save against the touched tree: the
in-process cache entry is TTL-expired (10000 ≥ 7200) and the snapshot is
stale, so this load reconstructs from the relational store. -/
def loadedAfterTouch : Option KnowledgeGraph :=
  (load_project fsScenarioATouched stAfterSaveA "/proj" 10000 true).1

/-- The context the builder produced for scenario A (the payload of
`kgScenarioA.context`). -/
def kgScenarioACtx : ProjectContext :=
  match kgScenarioA.context with
  | some c => c
  | none => scenarioCtx

/-! # Theorems -/

namespace PyDict

variable {α : Type}

theorem hasKey_insert (d : PyDict α) (k : String) (v : α) :
    hasKey (insert d k v) k = true := by
  induction d with
  | nil => simp [insert, hasKey]
  | cons h t ih =>
    obtain ⟨k', v'⟩ := h
    by_cases hk : k' = k <;> simp [insert, hasKey, hk, ih]

theorem lookup_insert (d : PyDict α) (k : String) (v : α) :
    lookup (insert d k v) k = some v := by
  induction d with
  | nil => simp [insert, lookup]
  | cons h t ih =>
    obtain ⟨k', v'⟩ := h
    by_cases hk : k' = k <;> simp [insert, lookup, hk, ih]

theorem lookup_insert_ne (d : PyDict α) (k k' : String) (v : α) (h : k ≠ k') :
    lookup (insert d k v) k' = lookup d k' := by
  induction d with
  | nil => simp [insert, lookup, h]
  | cons hd t ih =>
    obtain ⟨k₀, v₀⟩ := hd
    by_cases hk : k₀ = k
    · subst hk
      simp only [insert, if_pos rfl, lookup, if_neg h]
    · simp only [insert, if_neg hk, lookup]
      by_cases hk' : k₀ = k'
      · rw [if_pos hk', if_pos hk']
      · rw [if_neg hk', if_neg hk']
        exact ih

theorem lookup_eq_none_of_not_mem (d : PyDict α) (k : String)
    (h : k ∉ keys d) : lookup d k = none := by
  induction d with
  | nil => rfl
  | cons hd t ih =>
    obtain ⟨k₀, v₀⟩ := hd
    simp only [keys, List.map_cons, List.mem_cons, not_or] at h
    simp only [lookup, if_neg (fun hh : k₀ = k => h.1 hh.symm)]
    exact ih (by simpa [keys] using h.2)

theorem lookup_erase (d : PyDict α) (k : String)
    (hnd : (keys d).Nodup) : lookup (erase d k) k = none := by
  induction d with
  | nil => simp [erase, lookup]
  | cons hd t ih =>
    obtain ⟨k₀, v₀⟩ := hd
    simp only [keys, List.map_cons, List.nodup_cons] at hnd
    by_cases hk : k₀ = k
    · subst hk
      simp only [erase, if_pos rfl]
      exact lookup_eq_none_of_not_mem t k₀ hnd.1
    · simp only [erase, if_neg hk, lookup, if_neg hk]
      exact ih hnd.2

theorem isSome_lookup (d : PyDict α) (k : String) :
    (lookup d k).isSome = hasKey d k := by
  induction d with
  | nil => rfl
  | cons hd t ih =>
    obtain ⟨k₀, v₀⟩ := hd
    by_cases hk : k₀ = k <;> simp [lookup, hasKey, hk, ih]

theorem hasKey_erase (d : PyDict α) (k : String)
    (hnd : (keys d).Nodup) : hasKey (erase d k) k = false := by
  rw [← isSome_lookup, lookup_erase d k hnd]
  rfl

theorem length_insert_of_hasKey (d : PyDict α) (k : String) (v : α)
    (h : hasKey d k = true) : (insert d k v).length = d.length := by
  induction d with
  | nil => simp [hasKey] at h
  | cons hd t ih =>
    obtain ⟨k₀, v₀⟩ := hd
    by_cases hk : k₀ = k
    · simp [insert, hk]
    · simp only [hasKey, decide_eq_true_eq, Bool.or_eq_true] at h
      rcases h with h | h
      · exact absurd h hk
      · simp [insert, hk, ih h]

theorem length_insert_of_not_hasKey (d : PyDict α) (k : String) (v : α)
    (h : hasKey d k = false) : (insert d k v).length = d.length + 1 := by
  induction d with
  | nil => simp [insert]
  | cons hd t ih =>
    obtain ⟨k₀, v₀⟩ := hd
    simp only [hasKey, Bool.or_eq_false_iff, decide_eq_false_iff_not] at h
    simp [insert, h.1, ih h.2]

theorem hasKey_eq_keys_any (d : PyDict α) (k : String) :
    hasKey d k = (keys d).any (fun k' => k' = k) := by
  induction d with
  | nil => rfl
  | cons hd t ih =>
    obtain ⟨k₀, v₀⟩ := hd
    simp [hasKey, keys, ih]

theorem hasKey_congr {β : Type} (d : PyDict α) (d' : PyDict β)
    (h : keys d = keys d') (k : String) : hasKey d k = hasKey d' k := by
  rw [hasKey_eq_keys_any, hasKey_eq_keys_any, h]

end PyDict

/-! ## Save-side dependency-row lemmas (claim C4) -/

theorem mk_file_rows_map_path (files : PyDict FileNode) :
    (mk_file_rows files).map (fun r => r.file_path) = PyDict.keys files := by
  unfold mk_file_rows PyDict.keys
  rw [List.map_map]
  have h1 : List.map ((fun r : FileRow => r.file_path) ∘ file_row_of) files.enum
      = List.map (Prod.fst ∘ Prod.snd) files.enum := rfl
  rw [h1, ← List.map_map, List.enum_map_snd]

theorem keys_file_id_map (rows : List FileRow) :
    PyDict.keys (file_id_map rows) = rows.map (fun r => r.file_path) := by
  unfold file_id_map PyDict.keys
  rw [List.map_map]
  rfl

theorem mk_dep_rows_list_length (fmap : PyDict Nat) (es : List Edge) :
    (mk_dep_rows_list fmap es).length =
      es.countP (fun e => (PyDict.lookup fmap e.src).isSome &&
                          (PyDict.lookup fmap e.dst).isSome) := by
  induction es with
  | nil => rfl
  | cons e t ih =>
    cases h1 : PyDict.lookup fmap e.src with
    | none =>
      simp only [mk_dep_rows_list, List.filterMap_cons, h1] at ih ⊢
      simp [List.countP_cons, h1, ih]
    | some fid =>
      cases h2 : PyDict.lookup fmap e.dst with
      | none =>
        simp only [mk_dep_rows_list, List.filterMap_cons, h1, h2] at ih ⊢
        simp [List.countP_cons, h1, h2, ih]
      | some tid =>
        simp only [mk_dep_rows_list, List.filterMap_cons, h1, h2] at ih ⊢
        simp [List.countP_cons, h1, h2, ih]

/-- C7 (confirmed). For every file node the computed risk score is
`min(1.0, s)` where `s` adds exactly 0.3 for size strictly over 10KB
(10000 bytes), 0.4 for strictly over 500 lines, 0.3 for strictly over
20 entities and 0.2 for strictly over 15 imports; and the scenario-B
file (10501 bytes, 521 lines, 22 entities, 17 imports) scores exactly
1. -/
theorem c7_risk_score_additive_saturating :
    (∀ f : FileNode, (calcRiskScore f).risk_score =
      min 1 ((if 10000 < f.size_bytes then (3 : ℚ)/10 else 0) +
             (if 500 < f.line_count then (4 : ℚ)/10 else 0) +
             (if 20 < f.entities.length then (3 : ℚ)/10 else 0) +
             (if 15 < f.imports.length then (2 : ℚ)/10 else 0))) ∧
    (calcRiskScore scenarioBFile).risk_score = 1 := by
  constructor
  · intro f
    simp only [calcRiskScore, riskFactors]
    split_ifs <;> norm_num [List.sum_append]
  · norm_num [calcRiskScore, riskFactors, scenarioBFile]

/-- C3 (counterexample). On the scenario-A project, `analyze` produces
NO `imports` edge at all — in particular not exactly one from `b.py` to
`a.py`: `from a import foo` surfaces as module string `a`, which
`_resolve_import` declines because it does not start with a
relative-path dot. -/
theorem c3_no_imports_edge_counterexample :
    (kgScenarioA.graph.edges.countP (fun e => e.data.relation_type = "imports")) = 0 ∧
    kgScenarioA.graph.hasEdge "/proj/b.py" "/proj/a.py" = false ∧
    ¬ (kgScenarioA.graph.edges.countP (fun e => e.data.relation_type = "imports")) = 1 := by
  refine ⟨by decide, by decide, by decide⟩

/-- C3 (amended). On the scenario-A project the graph has exactly the
two file nodes and the entity keyed `a.py:foo`, but zero `imports`
edges: the module-style import `from a import foo` is not resolved
(only `.`-prefixed relative import strings create edges), so the only
edge is the `contains` edge from `a.py` to its entity. -/
theorem c3_scenario_a_graph_shape :
    PyDict.keys kgScenarioA.files = ["/proj/a.py", "/proj/b.py"] ∧
    (kgScenarioA.graph.nodes.countP
      (fun n => PyDict.hasKey kgScenarioA.files n)) = 2 ∧
    PyDict.keys kgScenarioA.entities = ["/proj/a.py:foo"] ∧
    (kgScenarioA.graph.edges.countP (fun e => e.data.relation_type = "imports")) = 0 ∧
    kgScenarioA.graph.edges =
      [⟨"/proj/a.py", "/proj/a.py:foo", ⟨"contains", 1⟩⟩] := by
  refine ⟨by decide, by decide, by decide, by decide, by decide⟩

/-- C2 (code_bug evidence). Applying a batch holding one `modified`
change for `a.py` — which exists on disk — leaves the graph COMPLETELY
unchanged: `_process_single_file_change` invokes
`_analyze_single_file(file_path, relative_path)` with two positional
arguments against a one-parameter signature, so Python raises
`TypeError`; the batch loop's per-change `except` swallows it, so no
re-analysis happens and the stale `FileNode`/entities stay. -/
theorem c2_modified_file_never_reanalyzed :
    process_single_file_change fsScenarioA kgScenarioA modifyChangeA =
      .error .typeError ∧
    apply_changes fsScenarioA kgScenarioA [modifyChangeA] =
      .ok (kgScenarioA, []) := by
  exact ⟨rfl, rfl⟩

/-- C5 (code_bug evidence). After saving six distinct project roots
into one fresh manager, the in-process cache holds six entries even
though `max_cache_size` is 5: no code path ever reads
`max_cache_size` or evicts, so the configured bound is not enforced. -/
theorem c5_cache_exceeds_configured_bound :
    sixSaves.max_cache_size < sixSaves.cache.length ∧
    sixSaves.cache.length = 6 ∧
    sixSaves.max_cache_size = 5 := by
  refine ⟨by decide, rfl, rfl⟩

/-- C1 (counterexample). In a fully successful save the snapshot-write
event strictly precedes the `COMMIT` event — the snapshot is written
inside the transaction body, not "only after the relational transaction
has committed"; and when `COMMIT` itself raises, the call returns
failure yet the snapshot for that identity HAS been rewritten. -/
theorem c1_snapshot_written_before_commit :
    traceOfSuccessfulSave =
      [.beginTx, .writeContext, .writeFiles, .writeEntities, .writeDeps,
       .writeSnapshot, .commit, .updateMemCache] ∧
    traceOfSuccessfulSave.indexOf .writeSnapshot <
      traceOfSuccessfulSave.indexOf .commit ∧
    (save_project {} kgScenarioA 0 { failCommit := true }).2.1 = false ∧
    PyDict.hasKey (save_project {} kgScenarioA 0 { failCommit := true }).1.snapshots
      (md5 "/proj") = true := by
  refine ⟨rfl, by decide, rfl, rfl⟩

/-- C1 (amended). The snapshot is written only after all four
relational writes but before `COMMIT`; and an exception during any
relational write rolls the transaction back fully, makes the save
return failure, leaves the whole manager state (relational rows,
snapshots, cache) untouched, and writes no snapshot. -/
theorem c1_relational_failure_rolls_back (st : MMState) (kg : KnowledgeGraph)
    (now : Nat) (fail : SaveFailure)
    (hrel : kg.context = none ∨ fail.failContext = true ∨ fail.failFiles = true ∨
            fail.failEntities = true ∨ fail.failDeps = true) :
    ((save_project st kg now fail).2.1 = false ∧
     (save_project st kg now fail).1 = st ∧
     (save_project st kg now fail).2.2.contains .rollback = true ∧
     (save_project st kg now fail).2.2.contains .writeSnapshot = false) ∧
    (∀ fail' : SaveFailure,
      ((save_project st kg now fail').2.2.contains .commit = true →
        (save_project st kg now fail').2.2 =
          [.beginTx, .writeContext, .writeFiles, .writeEntities, .writeDeps,
           .writeSnapshot, .commit, .updateMemCache])) := by
  constructor
  · obtain ⟨f1, f2, f3, f4, f5, f6⟩ := fail
    cases hctx : kg.context with
    | none => simp [save_project, hctx]
    | some ctx =>
      rw [hctx] at hrel
      cases f1 <;> cases f2 <;> cases f3 <;> cases f4 <;> cases f5 <;>
        cases f6 <;> simp_all [save_project]
  · intro fail'
    obtain ⟨g1, g2, g3, g4, g5, g6⟩ := fail'
    cases hctx : kg.context <;> cases g1 <;> cases g2 <;> cases g3 <;>
      cases g4 <;> cases g5 <;> cases g6 <;> simp [save_project, hctx]

/-- C1 witness: the failure-injected save on a concrete graph, with the
hypothesis discharged at `failFiles := true`. -/
theorem c1_relational_failure_rolls_back_witness :
    (save_project {} kgScenarioA 0 { failFiles := true }).2.1 = false ∧
    (save_project {} kgScenarioA 0 { failFiles := true }).1 = {} ∧
    (save_project {} kgScenarioA 0 { failFiles := true }).2.2.contains
      .writeSnapshot = false :=
  let h := c1_relational_failure_rolls_back {} kgScenarioA 0 { failFiles := true }
    (Or.inr (Or.inr (Or.inl rfl)))
  ⟨h.1.1, h.1.2.1, h.1.2.2.2⟩

/-- C8 (confirmed). The monitoring flag is a consistent two-state
machine: starting while already monitoring returns with the state
untouched and no error (warning no-op); stopping while idle is a no-op;
and a start in which no watch mechanism can be started raises (second
component `true`) while leaving the instance state — in particular
`monitoring = false` — untouched. -/
theorem c8_monitoring_state_machine (canStart : ObserverKind → Bool)
    (force_polling : Bool) (s : UpdaterState) :
    (s.monitoring = true →
      start_monitoring canStart force_polling s = (s, false)) ∧
    (s.monitoring = false → stop_monitoring s = s) ∧
    (s.monitoring = false → (∀ k, canStart k = false) →
      start_monitoring canStart force_polling s = (s, true) ∧
      (start_monitoring canStart force_polling s).1.monitoring = false) := by
  refine ⟨fun hm => ?_, fun hm => ?_, fun hm hno => ?_⟩
  · simp [start_monitoring, hm]
  · simp [stop_monitoring, hm]
  · have hfind : (candidate_observers force_polling).find? canStart = none := by
      cases force_polling <;> simp [candidate_observers, List.find?, hno]
    constructor
    · simp [start_monitoring, hm, hfind]
    · simp [start_monitoring, hm, hfind]

/-- C8 witness: a fresh updater whose native and polling watchers both
fail to start raises and stays idle. -/
theorem c8_monitoring_state_machine_witness :
    start_monitoring (fun _ => false) false {} = ({}, true) ∧
    (start_monitoring (fun _ => false) false {}).1.monitoring = false :=
  (c8_monitoring_state_machine (fun _ => false) false {}).2.2 rfl (fun _ => rfl)

/-- C9 (counterexample). Not every external version-control subprocess
call of the core passes a bounded timeout: none of the current-branch,
commit-hash, commit-info or per-file git-log calls passes `timeout=` at
all. -/
theorem c9_no_call_has_timeout_counterexample :
    coreGitQueryCalls.all (fun c => c.timeout.isSome) = false ∧
    gitFileInfoCall.timeout = none := by
  exact ⟨rfl, rfl⟩

/-- C9 (amended). None of the core's version-control subprocess query
calls passes any timeout (they are unbounded); on the failures the code
anticipates — tool absent (`FileNotFoundError`) or non-zero exit
(`CalledProcessError`) — each query degrades to its sentinel
(`"unknown"` / empty) instead of propagating. -/
theorem c9_unbounded_calls_degrade_to_sentinels :
    coreGitQueryCalls.all (fun c => c.timeout = none) = true ∧
    get_current_branch .nonZeroExit = "unknown" ∧
    get_current_branch .toolAbsent = "unknown" ∧
    (∀ o₂ now, get_commit_info .nonZeroExit o₂ now = .ok ("unknown", now, "unknown")) ∧
    (∀ o₂ now, get_commit_info .toolAbsent o₂ now = .ok ("unknown", now, "unknown")) ∧
    (∀ s now, get_commit_info (.success s) .nonZeroExit now = .ok ("unknown", now, "unknown")) ∧
    (∀ s now, get_commit_info (.success s) .toolAbsent now = .ok ("unknown", now, "unknown")) ∧
    get_git_file_info .nonZeroExit = none ∧
    get_git_file_info .toolAbsent = none := by
  exact ⟨rfl, rfl, rfl, fun o₂ now => rfl, fun o₂ now => rfl,
         fun s now => rfl, fun s now => rfl, rfl, rfl⟩

/-- C6 (counterexample). When the underlying load raises inside the
overridden section, `_load_branch_project`'s `except` returns `None`
without ever reaching the restore line: the shared manager comes back
with `get_project_id` still bound to the branch lambda, not its
original binding. -/
theorem c6_override_not_restored_on_exception :
    (load_branch_project {} "/proj" "feature/x" [] 0 true).2.get_project_id "/proj"
      = "md5#/proj#feature/x" ∧
    (MMState.get_project_id {} "/proj") = "md5#/proj" ∧
    (load_branch_project {} "/proj" "feature/x" [] 0 true).2.get_project_id "/proj"
      ≠ MMState.get_project_id {} "/proj" := by
  refine ⟨rfl, rfl, by decide⟩

/-- C6 (amended). On normal completion (no exception from the
underlying load/save) the branch layer restores `get_project_id` to its
original binding before returning; but when the underlying call raises,
the caught exception skips the restore and the manager is left bound to
the branch lambda (for the save side, exactly when the save itself had
succeeded and the branch-context write raised). -/
theorem c6_override_restored_only_without_exception (st : MMState)
    (project_root branch_name : String) (fs : FileSystem) (now : Nat)
    (kg : KnowledgeGraph) (fail : SaveFailure) :
    ((load_branch_project st project_root branch_name fs now false).2.get_project_id
      = st.get_project_id) ∧
    ((save_branch_project st project_root branch_name kg now fail false).2.get_project_id
      = st.get_project_id) ∧
    ((load_branch_project st project_root branch_name fs now true).2.get_project_id
      = fun _ => generate_branch_project_id project_root branch_name) ∧
    ((save_branch_project st project_root branch_name kg now fail true).2.get_project_id
      = if (save_project { st with get_project_id :=
              fun _ => generate_branch_project_id project_root branch_name } kg now fail).2.1
        then (fun _ => generate_branch_project_id project_root branch_name)
        else st.get_project_id) := by
  refine ⟨rfl, ?_, rfl, ?_⟩
  · have hid : ∀ (st' : MMState),
        (save_project st' kg now fail).1.get_project_id = st'.get_project_id := by
      intro st'
      cases hctx : kg.context <;>
        simp [save_project, hctx] <;> split_ifs <;> rfl
    cases hs : (save_project { st with get_project_id :=
        fun _ => generate_branch_project_id project_root branch_name } kg now fail).2.1 <;>
      simp [save_branch_project, hs]
  · have hid : ∀ (st' : MMState),
        (save_project st' kg now fail).1.get_project_id = st'.get_project_id := by
      intro st'
      cases hctx : kg.context <;>
        simp [save_project, hctx] <;> split_ifs <;> rfl
    cases hs : (save_project { st with get_project_id :=
        fun _ => generate_branch_project_id project_root branch_name } kg now fail).2.1 <;>
      simp [save_branch_project, hs, hid]

/-- C10 (confirmed). A batch holding one `deleted` change for a
previously analyzed path removes its `FileNode` from the files map and
every entity keyed to that path from the entities map — but the
dependency graph itself is not mutated: the deleted file's node and all
its incident edges (`contains` and `imports`) stay in the graph. -/
theorem c10_deletion_leaves_graph_untouched (fs : FileSystem)
    (kg : KnowledgeGraph) (p : String)
    (hnd : (PyDict.keys kg.files).Nodup)
    (hp : PyDict.hasKey kg.files p = true)
    (hnode : kg.graph.nodes.contains p = true) :
    apply_changes fs kg [{ file_path := p, change_type := "deleted" }] =
      .ok ({ kg with files := PyDict.erase kg.files p,
                     entities := kg.entities.filter
                       (fun kv => kv.2.file_path ≠ p) }, [p]) ∧
    PyDict.lookup (PyDict.erase kg.files p) p = none ∧
    (kg.entities.filter (fun kv => kv.2.file_path ≠ p)).all
      (fun kv => kv.2.file_path ≠ p) = true ∧
    ({ kg with files := PyDict.erase kg.files p,
               entities := kg.entities.filter (fun kv => kv.2.file_path ≠ p)
       } : KnowledgeGraph).graph = kg.graph ∧
    kg.graph.nodes.contains p = true ∧
    kg.graph.incident p = kg.graph.incident p := by
  have hkey : PyDict.hasKey (PyDict.erase kg.files p) p = false :=
    PyDict.hasKey_erase kg.files p hnd
  refine ⟨?_, PyDict.lookup_erase kg.files p hnd, ?_, rfl, hnode, rfl⟩
  · simp [apply_changes, process_single_file_change, update_dependencies,
      hp, hkey, Except.map]
  · simp [List.all_eq_true, List.mem_filter]

/-- C10 witness: deleting `a.py` from the analyzed scenario-A graph. -/
theorem c10_deletion_leaves_graph_untouched_witness :
    PyDict.lookup (PyDict.erase kgScenarioA.files "/proj/a.py") "/proj/a.py"
      = none :=
  (c10_deletion_leaves_graph_untouched fsScenarioA kgScenarioA "/proj/a.py"
    (by decide) (by decide) (by decide)).2.1

/-- C4 (counterexample). Saving the analyzed scenario-A graph and then
loading it 10000 s later against the touched tree — so the in-process
cache entry is TTL-expired and the snapshot is stale, and the load falls
back to the relational store — returns NOTHING: `_rebuild_project_context`
raises `ModuleNotFoundError` on every call (absolute import
`from project_mind import ProjectContext`), `_load_from_database`'s
blanket `except` answers `None`, and so no loaded graph with the saved
graph's file-path set, entity-key set and edge count (1) exists. -/
theorem c4_db_reconstruction_returns_none :
    loadedAfterTouch = none ∧
    kgScenarioA.graph.number_of_edges = 1 ∧
    loadedAfterTouch ≠ some kgScenarioA := by
  refine ⟨rfl, rfl, by decide⟩

/-- C4 (amended). `save_project` followed by `load_project` on the same
root returns the saved instance itself — identical file-path set,
entity-key set and edge count — when the load is served from the
in-process cache (within TTL) or from the snapshot (no recorded file
newer on disk). But when the load falls through both caches, the
relational reconstruction NEVER yields a graph: `_rebuild_project_context`
raises on every call and the load reports absent (`None`), so the
claimed round-trip equality fails on that path entirely. Independently,
the durable `dependencies` table only ever receives rows for edges whose
BOTH endpoints are file paths — the `contains` edges into entity nodes
are dropped at save time. -/
theorem c4_roundtrip_caches_only (st : MMState) (kg : KnowledgeGraph)
    (ctx : ProjectContext) (fs : FileSystem) (now now2 : Nat)
    (hctx : kg.context = some ctx) :
    (save_project st kg now noSaveFailure).2.1 = true ∧
    (now2 - now < st.cache_ttl →
      (load_project fs (save_project st kg now noSaveFailure).1
        kg.project_root now2 true).1 = some kg) ∧
    (is_cache_valid fs kg = true →
      (load_project fs (save_project st kg now noSaveFailure).1
        kg.project_root now2 false).1 = some kg) ∧
    (¬(now2 - now < st.cache_ttl) → is_cache_valid fs kg = false →
      (load_project fs (save_project st kg now noSaveFailure).1
        kg.project_root now2 true).1 = none) ∧
    (buildProjectData ctx kg).dep_rows.length =
      kg.graph.edges.countP
        (fun e => PyDict.hasKey kg.files e.src && PyDict.hasKey kg.files e.dst) := by
  have hsave : (save_project st kg now noSaveFailure).1 =
      { st with
        db := PyDict.insert st.db (st.get_project_id kg.project_root)
          (buildProjectData ctx kg),
        snapshots := PyDict.insert st.snapshots
          (st.get_project_id kg.project_root) kg,
        cache := PyDict.insert st.cache (st.get_project_id kg.project_root) kg,
        cache_timestamps := PyDict.insert st.cache_timestamps
          (st.get_project_id kg.project_root) now } := by
    simp [save_project, hctx, noSaveFailure]
  refine ⟨?_, ?_, ?_, ?_, ?_⟩
  · simp [save_project, hctx, noSaveFailure]
  · intro hfresh
    rw [hsave]
    simp [load_project, PyDict.lookup_insert, hfresh]
  · intro hvalid
    rw [hsave]
    simp [load_project, PyDict.lookup_insert, hvalid]
  · intro httl hstale
    rw [hsave]
    simp only [load_project, PyDict.lookup_insert, if_neg httl, hstale,
      load_from_database, rebuild_project_context, Bool.false_eq_true,
      if_false, if_true]
  · have hkeysfmap : PyDict.keys (file_id_map (mk_file_rows kg.files))
        = PyDict.keys kg.files := by
      rw [keys_file_id_map, mk_file_rows_map_path]
    have hcongr : ∀ e ∈ kg.graph.edges,
        ((PyDict.lookup (file_id_map (mk_file_rows kg.files)) e.src).isSome &&
         (PyDict.lookup (file_id_map (mk_file_rows kg.files)) e.dst).isSome)
        = (PyDict.hasKey kg.files e.src && PyDict.hasKey kg.files e.dst) := by
      intro e he
      rw [PyDict.isSome_lookup, PyDict.isSome_lookup,
        PyDict.hasKey_congr _ _ hkeysfmap, PyDict.hasKey_congr _ _ hkeysfmap]
    simp only [buildProjectData, mk_dep_rows]
    rw [mk_dep_rows_list_length, List.countP_eq_length_filter,
      List.countP_eq_length_filter, List.filter_congr hcongr]

/-- C4 witness: the touched scenario-A tree with all hypotheses
discharged on the analyzed graph — the TTL-expired, stale-snapshot load
falls through to the relational store and comes back empty-handed. -/
theorem c4_roundtrip_caches_only_witness :
    (load_project fsScenarioATouched (save_project {} kgScenarioA 0 noSaveFailure).1
        kgScenarioA.project_root 10000 true).1 = none :=
  (c4_roundtrip_caches_only {} kgScenarioA kgScenarioACtx fsScenarioATouched
    0 10000 rfl).2.2.2.1 (by decide) (by decide)

end PQH
